import Mathlib

/-!
Verification of the FoodBuzz optimistic-interaction reconciler and the
ephemeral stories lifecycle, shallowly embedded from the TypeScript source.

Part 1: the relation toggles (like, bookmark, follow).
  - `toggleLike`, `toggleBookmark` embed `src/components/PostCard.tsx`
    (`toggleLike` lines 212-251, `toggleBookmark` lines 253-290).
  - `handleFollow` embeds `src/app/restaurant/profile/[id].tsx`
    (`handleFollow` lines 210-244).
Each handler is a pure function of: the authenticated user (if any), the
component's local state, and the outcome of the single persistence request
it may issue.  Besides the settled local state it returns the ordered list
of observable events (local state writes, persistence requests, navigation,
error logs) so that ordering claims can be stated.
-/

/-- Failure taxonomy of a persistence request (spec section 7). -/
inductive ErrKind where
  | network
  | auth
  | notFound
  | conflict
deriving DecidableEq, Repr

/-- Outcome of a single persistence request: `none` = success,
`some e` = the request failed with error kind `e`. -/
abbrev ReqOutcome := Option ErrKind

/-- Observable events emitted by a toggle handler, in program order. -/
inductive Ev where
  /-- `router.push route` / `router.replace route`. -/
  | navigate (route : String)
  /-- `setIsLiked b` -/
  | setLiked (b : Bool)
  /-- `setLikeCount n` (value after the functional update) -/
  | setLikeCount (n : Int)
  /-- `setIsBookmarked b` -/
  | setBookmarked (b : Bool)
  /-- `setIsFollowing b` -/
  | setFollowing (b : Bool)
  /-- `setFollowersCount n` (value after the functional update) -/
  | setFollowersCount (n : Int)
  /-- `supabase.from(table).insert(...)` issued -/
  | insertRow (table : String)
  /-- `supabase.from(table).delete()...` issued -/
  | deleteRow (table : String)
  /-- `console.error(...)` -/
  | logError
deriving DecidableEq, Repr

/-- Local state of a `PostCard` relevant to the like/bookmark toggles
(`isLiked`, `likeCount`, `isBookmarked`, and the two in-flight flags from
`loadingStates`). -/
structure CardState where
  isLiked : Bool
  likeCount : Int
  isBookmarked : Bool
  loadingLikes : Bool
  loadingBookmark : Bool
deriving DecidableEq, Repr

/-- `toggleLike` from `src/components/PostCard.tsx` lines 212-251.
`user` is the ambient auth session, `s` the component state at invocation,
`req` the outcome of the insert/delete the handler issues (ignored when no
request is sent).  Returns the settled state and the event trace. -/
def toggleLike (user : Option String) (s : CardState) (req : ReqOutcome) :
    CardState × List Ev :=
  match user with
  | none => (s, [Ev.navigate "/login"])
  | some _ =>
    if s.loadingLikes then (s, [])
    else
      let wasLiked := s.isLiked
      let optimisticCount := if wasLiked then s.likeCount - 1 else s.likeCount + 1
      let reqEv := if wasLiked then Ev.deleteRow "likes" else Ev.insertRow "likes"
      match req with
      | none =>
        ({ s with isLiked := !wasLiked, likeCount := optimisticCount,
                  loadingLikes := false },
         [Ev.setLiked (!wasLiked), Ev.setLikeCount optimisticCount, reqEv])
      | some _ =>
        -- catch: revert the optimistic update, log, clear the flag
        let revertCount := if wasLiked then optimisticCount + 1 else optimisticCount - 1
        ({ s with isLiked := wasLiked, likeCount := revertCount,
                  loadingLikes := false },
         [Ev.setLiked (!wasLiked), Ev.setLikeCount optimisticCount, reqEv,
          Ev.setLiked wasLiked, Ev.setLikeCount revertCount, Ev.logError])

/-- `toggleBookmark` from `src/components/PostCard.tsx` lines 253-290:
same shape as `toggleLike` but with no counter. -/
def toggleBookmark (user : Option String) (s : CardState) (req : ReqOutcome) :
    CardState × List Ev :=
  match user with
  | none => (s, [Ev.navigate "/login"])
  | some _ =>
    if s.loadingBookmark then (s, [])
    else
      let wasBookmarked := s.isBookmarked
      let reqEv := if wasBookmarked then Ev.deleteRow "bookmarks" else Ev.insertRow "bookmarks"
      match req with
      | none =>
        ({ s with isBookmarked := !wasBookmarked, loadingBookmark := false },
         [Ev.setBookmarked (!wasBookmarked), reqEv])
      | some _ =>
        ({ s with isBookmarked := wasBookmarked, loadingBookmark := false },
         [Ev.setBookmarked (!wasBookmarked), reqEv,
          Ev.setBookmarked wasBookmarked, Ev.logError])

/-- Local follow state of the restaurant profile screen
(`isFollowing`, `followersCount`). -/
structure FollowState where
  isFollowing : Bool
  followersCount : Int
deriving DecidableEq, Repr

/-- `handleFollow` from `src/app/restaurant/profile/[id].tsx` lines 210-244.
Note the source issues the delete/insert FIRST and writes local state only
after the request succeeded; on failure it only logs.  There is no
in-flight flag in this handler. -/
def handleFollow (user : Option String) (s : FollowState) (req : ReqOutcome) :
    FollowState × List Ev :=
  match user with
  | none => (s, [Ev.navigate "/login"])
  | some _ =>
    if s.isFollowing then
      match req with
      | none =>
        ({ isFollowing := false, followersCount := s.followersCount - 1 },
         [Ev.deleteRow "follows", Ev.setFollowing false,
          Ev.setFollowersCount (s.followersCount - 1)])
      | some _ => (s, [Ev.deleteRow "follows", Ev.logError])
    else
      match req with
      | none =>
        ({ isFollowing := true, followersCount := s.followersCount + 1 },
         [Ev.insertRow "follows", Ev.setFollowing true,
          Ev.setFollowersCount (s.followersCount + 1)])
      | some _ => (s, [Ev.insertRow "follows", Ev.logError])

/-- Is the event a write of local relation state or counter? -/
def isStateWrite : Ev → Bool
  | Ev.setLiked _ => true
  | Ev.setLikeCount _ => true
  | Ev.setBookmarked _ => true
  | Ev.setFollowing _ => true
  | Ev.setFollowersCount _ => true
  | _ => false

/-- Is the event a persistence request (insert or delete)? -/
def isReqEv : Ev → Bool
  | Ev.insertRow _ => true
  | Ev.deleteRow _ => true
  | _ => false

/-- Is the event a navigation side effect? -/
def isNavigate : Ev → Bool
  | Ev.navigate _ => true
  | _ => false

/-- A trace performs an optimistic write: it contains a persistence
request, and some local state write occurs strictly before the first
request. -/
def flipBeforeRequest (tr : List Ev) : Bool :=
  match tr.findIdx? isReqEv with
  | none => false
  | some j => (tr.take j).any isStateWrite

/-!
Part 2: the ephemeral stories lifecycle, embedded from `src/lib/stories.ts`
and the viewer screen `src/app/stories/[userId].tsx`.  The `stories` table
is a list of `StoryRow`; timestamps are integers.  The backend's
`select ... order(created_at, ascending)` is modelled as filter followed by
a stable merge sort on `created_at`.
-/

/-- A row of the `stories` table (id, user_id, image_url, created_at,
expires_at, is_active). -/
structure StoryRow where
  id : String
  user_id : String
  image_url : String
  created_at : Int
  expires_at : Int
  is_active : Bool
deriving DecidableEq, Repr

/-- The row filter of `getUserStories` (`src/lib/stories.ts` lines 84-111):
`.eq(user_id, uid).eq(is_active, true).gt(expires_at, now)`. -/
def storyVisible (uid : String) (now : Int) (r : StoryRow) : Bool :=
  r.user_id = uid && r.is_active && decide (now < r.expires_at)

/-- Comparison used by `.order(created_at, ascending: true)`. -/
def createdLe (a b : StoryRow) : Bool :=
  decide (a.created_at ≤ b.created_at)

/-- `getUserStories` from `src/lib/stories.ts` lines 84-111: the author's
active, unexpired stories ordered by `created_at` ascending. -/
def getUserStories (db : List StoryRow) (uid : String) (now : Int) : List StoryRow :=
  List.mergeSort (db.filter (storyVisible uid now)) createdLe

/-- `deleteStory` from `src/lib/stories.ts` lines 152-165:
`update(is_active := false).eq(id, storyId).eq(user_id, userId)` on the
`stories` table. -/
def deleteStory (db : List StoryRow) (storyId userId : String) : List StoryRow :=
  db.map fun r =>
    if r.id = storyId ∧ r.user_id = userId then { r with is_active := false } else r

/-- The `seen_stories` table: rows `(story_id, user_id)`. -/
abbrev SeenDb := List (String × String)

/-- How many rows of the `seen_stories` table carry the given composite
key. -/
def seenCount (db : SeenDb) (sid uid : String) : Nat :=
  db.countP (fun p => decide (p = (sid, uid)))

/-- The backend `upsert` with `onConflict: story_id,user_id`
(`src/lib/stories.ts` lines 5-10): if a row with the composite key exists
it is overwritten in place (a no-op, the row has no other columns),
otherwise the row is appended. -/
def upsertSeen (db : SeenDb) (sid uid : String) : SeenDb :=
  if (sid, uid) ∈ db then db else db ++ [(sid, uid)]

/-- The `try` body of `markStoryAsSeen`: the upsert request, which may fail. -/
def upsertSeenReq (db : SeenDb) (sid uid : String) (req : ReqOutcome) :
    Except ErrKind SeenDb :=
  match req with
  | none => Except.ok (upsertSeen db sid uid)
  | some e => Except.error e

/-- `markStoryAsSeen` from `src/lib/stories.ts` lines 3-16: the upsert
wrapped in try/catch; every failure is logged (`Bool` flag) and swallowed,
and the function always returns normally to the caller. -/
def markStoryAsSeen (db : SeenDb) (sid uid : String) (req : ReqOutcome) :
    SeenDb × Bool :=
  match upsertSeenReq db sid uid req with
  | Except.ok db2 => (db2, false)
  | Except.error _ => (db, true)

/-- `n` successive calls of `markStoryAsSeen` whose requests all succeed. -/
def iterMarkSeen (db : SeenDb) (sid uid : String) : Nat → SeenDb
  | 0 => db
  | n + 1 => iterMarkSeen (markStoryAsSeen db sid uid none).1 sid uid n

/-!
The story viewer screen `src/app/stories/[userId].tsx`.
-/

/-- How a viewer session exits: `redirectCreate` is
`router.replace(stories-create)`, `goBack` is `router.back()`. -/
inductive ViewerExit where
  | redirectCreate
  | goBack
deriving DecidableEq, Repr

/-- Client-local viewer state after loading: either playing item
`currentIndex` with elapsed progress (milliseconds of the 5000ms window),
or exited. -/
inductive ViewerState where
  | Playing (currentIndex : Nat) (progress : Nat)
  | Exited (e : ViewerExit)
deriving DecidableEq, Repr

/-- The exit branching of `fetchStories` (lines 57-67 and 78-83): empty or
failed load redirects to the creation flow when the viewed author is the
current user (`userId === user?.id`), otherwise navigates back. -/
def exitBranch (viewedId : String) (currentUser : Option String) : ViewerState :=
  match currentUser with
  | some u => if viewedId = u then ViewerState.Exited ViewerExit.redirectCreate
              else ViewerState.Exited ViewerExit.goBack
  | none => ViewerState.Exited ViewerExit.goBack

/-- `fetchStories` from `src/app/stories/[userId].tsx` lines 28-92.
`fail` is the outcome of the select request; on success the rows are the
same author-scoped visible-story query as `getUserStories`.  Returns the
viewer state after load (progress reset to 0 by
`startProgressAnimation`) and the ids passed to `markStoryAsSeen`. -/
def fetchStories (db : List StoryRow) (viewedId : String) (now : Int)
    (currentUser : Option String) (fail : ReqOutcome) :
    ViewerState × List String :=
  match fail with
  | some _ => (exitBranch viewedId currentUser, [])
  | none =>
    match getUserStories db viewedId now, currentUser with
    | [], _ => (exitBranch viewedId currentUser, [])
    | st0 :: _, some _ => (ViewerState.Playing 0 0, [st0.id])
    | _ :: _, none => (ViewerState.Playing 0 0, [])

/-- `goToNextStory` from `src/app/stories/[userId].tsx` lines 115-128,
invoked when the 5000ms progress animation of item `i` finishes: advance
and mark the new current item seen, or exit via `router.back()` after the
last item. -/
def goToNextStory (stories : List StoryRow) (currentUser : Option String)
    (i : Nat) : ViewerState × List String :=
  if i < stories.length - 1 then
    (ViewerState.Playing (i + 1) 0,
     match currentUser, stories[i + 1]? with
     | some _, some st => [st.id]
     | _, _ => [])
  else
    (ViewerState.Exited ViewerExit.goBack, [])

/-- Fire up to `fuel` natural timer expiries starting from `Playing i`,
collecting the ids marked seen along the way. -/
def runTimers (stories : List StoryRow) (currentUser : Option String) :
    Nat → Nat → ViewerState × List String
  | i, 0 => (ViewerState.Playing i 0, [])
  | i, fuel + 1 =>
    match goToNextStory stories currentUser i with
    | (ViewerState.Playing j _, ms) =>
      let rest := runTimers stories currentUser j fuel
      (rest.1, ms ++ rest.2)
    | (ViewerState.Exited e, ms) => (ViewerState.Exited e, ms)

/-- A whole viewer session: load the author's stories (successfully), then
let `fuel` timers expire naturally.  Returns the final state and every id
marked seen, in order. -/
def viewerSession (db : List StoryRow) (viewedId : String) (now : Int)
    (currentUser : Option String) (fuel : Nat) : ViewerState × List String :=
  match fetchStories db viewedId now currentUser none with
  | (ViewerState.Playing i _, ms0) =>
    let run := runTimers (getUserStories db viewedId now) currentUser i fuel
    (run.1, ms0 ++ run.2)
  | (st, ms0) => (st, ms0)

/-!
Theorems.
-/

/-- C10: Unauthenticated toggle is inert — with no user session, the like
and bookmark toggles issue no persistence request, change no local state
or counter, and their only effect is a navigation to the login route. -/
theorem unauthenticated_toggle_inert (s : CardState) (r : ReqOutcome) :
    toggleLike none s r = (s, [Ev.navigate "/login"]) ∧
    toggleBookmark none s r = (s, [Ev.navigate "/login"]) :=
  ⟨rfl, rfl⟩

/-- C1: Rollback law — for each of the three relation toggles, if the
persistence request issued by the toggle fails, the settled local boolean
state and counter are exactly the pre-toggle values. -/
theorem toggle_rollback :
    (∀ (u : String) (s : CardState) (e : ErrKind), s.loadingLikes = false →
       (toggleLike (some u) s (some e)).1 = s) ∧
    (∀ (u : String) (s : CardState) (e : ErrKind), s.loadingBookmark = false →
       (toggleBookmark (some u) s (some e)).1 = s) ∧
    (∀ (u : String) (s : FollowState) (e : ErrKind),
       (handleFollow (some u) s (some e)).1 = s) := by
  refine ⟨?_, ?_, ?_⟩
  · intro u s e h
    obtain ⟨liked, cnt, bmk, ldL, ldB⟩ := s
    simp only [CardState.loadingLikes] at h
    subst h
    cases liked <;> simp [toggleLike]
  · intro u s e h
    obtain ⟨liked, cnt, bmk, ldL, ldB⟩ := s
    simp only [CardState.loadingBookmark] at h
    subst h
    cases liked <;> simp [toggleBookmark]
  · intro u s e
    obtain ⟨fol, cnt⟩ := s
    cases fol <;> simp [handleFollow]

/-- C1 witness: the rollback law applied to a concrete failing like
toggle. -/
theorem toggle_rollback_witness :
    (toggleLike (some "u") ⟨false, 5, false, false, false⟩ (some ErrKind.network)).1
      = ⟨false, 5, false, false, false⟩ :=
  toggle_rollback.1 "u" ⟨false, 5, false, false, false⟩ ErrKind.network rfl

/-- C9: `deleteStory` frame property — the update preserves the table's
length and rewrites each row independently: a row is changed (and then
only in its `is_active` field) exactly when its `id` equals `storyId` AND
its `user_id` equals the calling author; every other row, including a row
with the same id but a different author, is returned unchanged. -/
theorem deleteStory_frame (db : List StoryRow) (storyId userId : String) (i : Nat) :
    (deleteStory db storyId userId).length = db.length ∧
    (deleteStory db storyId userId)[i]? =
      (db[i]?).map (fun r =>
        if r.id = storyId ∧ r.user_id = userId then { r with is_active := false }
        else r) := by
  refine ⟨by simp [deleteStory], ?_⟩
  simp [deleteStory]

/-- C4: story visibility — a row appears in `getUserStories db uid now`
iff it is in the table, belongs to `uid`, is active, and `now` is strictly
before its expiry (so a story is excluded at the boundary instant
`now = expires_at`); the result is ordered by `created_at` ascending; and
the result is empty exactly when no row qualifies. -/
theorem getUserStories_spec (db : List StoryRow) (uid : String) (now : Int)
    (s : StoryRow) :
    (s ∈ getUserStories db uid now ↔
       s ∈ db ∧ s.user_id = uid ∧ s.is_active = true ∧ now < s.expires_at) ∧
    List.Pairwise (fun a b => a.created_at ≤ b.created_at)
      (getUserStories db uid now) ∧
    (getUserStories db uid now = [] ↔
       ∀ t ∈ db, ¬(t.user_id = uid ∧ t.is_active = true ∧ now < t.expires_at)) := by
  have hmem : ∀ x : StoryRow, x ∈ getUserStories db uid now ↔
      x ∈ db ∧ x.user_id = uid ∧ x.is_active = true ∧ now < x.expires_at := by
    intro x
    simp [getUserStories, List.mem_filter, storyVisible, and_assoc]
  refine ⟨hmem s, ?_, ?_⟩
  · have htrans : ∀ a b c : StoryRow,
        createdLe a b → createdLe b c → createdLe a c := by
      intro a b c hab hbc
      simp only [createdLe, decide_eq_true_eq] at hab hbc ⊢
      omega
    have htotal : ∀ a b : StoryRow, createdLe a b || createdLe b a := by
      intro a b
      simp only [createdLe, Bool.or_eq_true, decide_eq_true_eq]
      omega
    have h := List.sorted_mergeSort htrans htotal
      (db.filter (storyVisible uid now))
    exact h.imp (fun hab => by simpa [createdLe] using hab)
  · rw [List.eq_nil_iff_forall_not_mem]
    constructor
    · intro h t ht hP
      exact h t ((hmem t).mpr ⟨ht, hP⟩)
    · intro h x hx
      obtain ⟨hxdb, hP⟩ := (hmem x).mp hx
      exact h x hxdb hP

/-- After a successful upsert the composite key occurs exactly once,
provided the table satisfied the composite-unique invariant before. -/
theorem seenCount_upsert (db : SeenDb) (sid uid : String)
    (h : seenCount db sid uid ≤ 1) :
    seenCount (upsertSeen db sid uid) sid uid = 1 := by
  unfold upsertSeen seenCount at *
  by_cases hm : (sid, uid) ∈ db
  · simp only [hm, if_pos]
    have hpos : 0 < db.countP (fun p => decide (p = (sid, uid))) := by
      rw [List.countP_pos_iff]
      exact ⟨(sid, uid), hm, by simp⟩
    omega
  · simp only [hm, if_neg, not_false_iff, List.countP_append]
    have hz : db.countP (fun p => decide (p = (sid, uid))) = 0 := by
      rw [List.countP_eq_zero]
      intro a ha
      simp only [decide_eq_true_eq]
      intro hEq
      exact hm (hEq ▸ ha)
    simp [hz]

/-- The successful upsert makes the key present. -/
theorem mem_upsertSeen (db : SeenDb) (sid uid : String) :
    (sid, uid) ∈ upsertSeen db sid uid := by
  unfold upsertSeen
  by_cases hm : (sid, uid) ∈ db
  · simp [hm]
  · simp [hm]

/-- Iterating successful `markStoryAsSeen` calls preserves `count = 1`. -/
theorem iterMarkSeen_count (sid uid : String) :
    ∀ (n : Nat) (db : SeenDb), seenCount db sid uid = 1 →
      seenCount (iterMarkSeen db sid uid n) sid uid = 1 := by
  intro n
  induction n with
  | zero => intro db h; simpa [iterMarkSeen] using h
  | succ k ih =>
    intro db h
    have h1 : seenCount (upsertSeen db sid uid) sid uid = 1 :=
      seenCount_upsert db sid uid (by omega)
    simpa [iterMarkSeen, markStoryAsSeen, upsertSeenReq] using ih _ h1

/-- C5: `markStoryAsSeen` idempotence and total failure absorption — any
number `n ≥ 1` of successive successful calls leaves exactly one
`seen_stories` row for the `(storyId, viewerId)` pair (the upsert never
duplicates the composite key, given the table's composite-unique
invariant), and a call whose request fails of any kind returns normally
to the caller with the table unchanged and the failure merely logged. -/
theorem markSeen_idempotent_absorbing :
    (∀ (db : SeenDb) (sid uid : String) (n : Nat), 1 ≤ n →
       seenCount db sid uid ≤ 1 →
       seenCount (iterMarkSeen db sid uid n) sid uid = 1) ∧
    (∀ (db : SeenDb) (sid uid : String) (e : ErrKind),
       markStoryAsSeen db sid uid (some e) = (db, true)) := by
  constructor
  · intro db sid uid n hn hle
    obtain ⟨k, rfl⟩ : ∃ k, n = k + 1 := ⟨n - 1, by omega⟩
    have h1 : seenCount (upsertSeen db sid uid) sid uid = 1 :=
      seenCount_upsert db sid uid hle
    simpa [iterMarkSeen, markStoryAsSeen, upsertSeenReq] using
      iterMarkSeen_count sid uid k _ h1
  · intro db sid uid e
    rfl

/-- C5 witness: three successive successful calls on an empty table leave
exactly one row for the pair, and a failing call is absorbed. -/
theorem markSeen_idempotent_absorbing_witness :
    seenCount (iterMarkSeen [] "story1" "viewer1" 3) "story1" "viewer1" = 1 ∧
    markStoryAsSeen [] "story1" "viewer1" (some ErrKind.network) = ([], true) :=
  ⟨markSeen_idempotent_absorbing.1 [] "story1" "viewer1" 3 (by decide) (by decide),
   markSeen_idempotent_absorbing.2 [] "story1" "viewer1" ErrKind.network⟩

/-- C2 counterexample: the claim asserts every relation toggle flips local
state before its persistence request is issued, uniformly across the three
kinds.  The follow toggle refutes it: at the concrete state
`isFollowing = false`, `followersCount = 0` with a succeeding request, the
trace of `handleFollow` contains no local state write before its
request — the insert is issued first. -/
theorem follow_not_optimistic_cex :
    flipBeforeRequest (handleFollow (some "u") ⟨false, 0⟩ none).2 = false := by
  decide

/-- C2 amended: like and bookmark toggles flip the local boolean (and the
like toggle adjusts the counter by `+1` when activating, `-1` when
deactivating) synchronously before issuing the insert/delete; the follow
toggle instead issues its request first and never writes local state
before it. -/
theorem optimistic_ordering_amended :
    (∀ (u : String) (s : CardState) (r : ReqOutcome), s.loadingLikes = false →
       (toggleLike (some u) s r).2.take 3 =
         [Ev.setLiked (!s.isLiked),
          Ev.setLikeCount (if s.isLiked then s.likeCount - 1 else s.likeCount + 1),
          if s.isLiked then Ev.deleteRow "likes" else Ev.insertRow "likes"]) ∧
    (∀ (u : String) (s : CardState) (r : ReqOutcome), s.loadingBookmark = false →
       (toggleBookmark (some u) s r).2.take 2 =
         [Ev.setBookmarked (!s.isBookmarked),
          if s.isBookmarked then Ev.deleteRow "bookmarks" else Ev.insertRow "bookmarks"]) ∧
    (∀ (u : String) (s : FollowState) (r : ReqOutcome),
       flipBeforeRequest (handleFollow (some u) s r).2 = false ∧
       (handleFollow (some u) s r).2.head? =
         some (if s.isFollowing then Ev.deleteRow "follows" else Ev.insertRow "follows")) := by
  refine ⟨?_, ?_, ?_⟩
  · intro u s r h
    cases hL : s.isLiked <;> cases r <;> simp [toggleLike, h, hL]
  · intro u s r h
    cases hB : s.isBookmarked <;> cases r <;> simp [toggleBookmark, h, hB]
  · intro u s r
    cases hF : s.isFollowing <;> cases r <;>
      simp [handleFollow, hF, flipBeforeRequest, isReqEv, isStateWrite]

/-- C2 witness: the amended ordering at a concrete like toggle and a
concrete follow toggle. -/
theorem optimistic_ordering_amended_witness :
    (toggleLike (some "u") ⟨false, 5, false, false, false⟩ none).2.take 3 =
      [Ev.setLiked true, Ev.setLikeCount 6, Ev.insertRow "likes"] ∧
    flipBeforeRequest (handleFollow (some "u") ⟨true, 2⟩ none).2 = false := by
  constructor
  · have h := optimistic_ordering_amended.1 "u" ⟨false, 5, false, false, false⟩ none rfl
    simpa using h
  · exact (optimistic_ordering_amended.2.2 "u" ⟨true, 2⟩ none).1

/-- C3 counterexample: the claim asserts that for every relation kind a
toggle arriving while one is in flight on the same key is a complete
no-op issuing no second request.  The follow handler has no in-flight
flag: while a first follow toggle on `isFollowing = false`,
`followersCount = 0` is awaiting its insert, the local state is still
`⟨false, 0⟩` (no optimistic write), and a second invocation on that state
issues another persistence request instead of being dropped. -/
theorem follow_no_inflight_guard_cex :
    ((handleFollow (some "u") ⟨false, 0⟩ none).2).any isReqEv = true := by
  decide

/-- C3 amended: the like and bookmark toggles are complete no-ops (state
unchanged, no events at all) when their respective in-flight flag is set;
the follow toggle has no in-flight guard and, when authenticated, always
issues a persistence request. -/
theorem inflight_guard_amended :
    (∀ (u : String) (s : CardState) (r : ReqOutcome), s.loadingLikes = true →
       toggleLike (some u) s r = (s, [])) ∧
    (∀ (u : String) (s : CardState) (r : ReqOutcome), s.loadingBookmark = true →
       toggleBookmark (some u) s r = (s, [])) ∧
    (∀ (u : String) (s : FollowState) (r : ReqOutcome),
       ((handleFollow (some u) s r).2).any isReqEv = true) := by
  refine ⟨?_, ?_, ?_⟩
  · intro u s r h
    simp [toggleLike, h]
  · intro u s r h
    simp [toggleBookmark, h]
  · intro u s r
    cases hF : s.isFollowing <;> cases r <;>
      simp [handleFollow, hF, isReqEv]

/-- C3 witness: the guard at a concrete in-flight like toggle, and the
missing guard at a concrete follow toggle. -/
theorem inflight_guard_amended_witness :
    toggleLike (some "u") ⟨true, 7, false, true, false⟩ none
      = (⟨true, 7, false, true, false⟩, []) ∧
    ((handleFollow (some "u") ⟨true, 3⟩ (some ErrKind.network)).2).any isReqEv = true :=
  ⟨inflight_guard_amended.1 "u" ⟨true, 7, false, true, false⟩ none rfl,
   inflight_guard_amended.2.2 "u" ⟨true, 3⟩ (some ErrKind.network)⟩

/-- C8 counterexample: the claim asserts that a relation toggle failing
with an authentication error both reverts local state and fires a
redirect-to-sign-in navigation.  At the concrete inputs below (an
authenticated follow toggle and an authenticated like toggle whose
requests fail with `ErrKind.auth`) no navigation event of any kind is
emitted: the handlers never inspect the error kind. -/
theorem auth_error_no_redirect_cex :
    ((handleFollow (some "u") ⟨true, 5⟩ (some ErrKind.auth)).2).any isNavigate
      = false ∧
    ((toggleLike (some "u") ⟨true, 5, false, false, false⟩
        (some ErrKind.auth)).2).any isNavigate = false := by
  decide

/-- C8 amended: no toggle inspects the failure kind — an authentication
failure is handled exactly like any other failure (rollback and log for
like/bookmark, log-only for follow) with no navigation side effect; the
redirect to the login route fires only pre-flight, when no user session is
present at invocation. -/
theorem error_handling_uniform_amended :
    (∀ (u : String) (s : CardState) (e1 e2 : ErrKind),
       toggleLike (some u) s (some e1) = toggleLike (some u) s (some e2) ∧
       toggleBookmark (some u) s (some e1) = toggleBookmark (some u) s (some e2)) ∧
    (∀ (u : String) (s : FollowState) (e1 e2 : ErrKind),
       handleFollow (some u) s (some e1) = handleFollow (some u) s (some e2)) ∧
    (∀ (u : String) (s : CardState) (r : ReqOutcome),
       ((toggleLike (some u) s r).2).any isNavigate = false ∧
       ((toggleBookmark (some u) s r).2).any isNavigate = false) ∧
    (∀ (u : String) (s : FollowState) (r : ReqOutcome),
       ((handleFollow (some u) s r).2).any isNavigate = false) ∧
    (∀ (s : CardState) (sf : FollowState) (r : ReqOutcome),
       (toggleLike none s r).2 = [Ev.navigate "/login"] ∧
       (toggleBookmark none s r).2 = [Ev.navigate "/login"] ∧
       (handleFollow none sf r).2 = [Ev.navigate "/login"]) := by
  refine ⟨?_, ?_, ?_, ?_, ?_⟩
  · intro u s e1 e2
    constructor
    · cases hL : s.loadingLikes <;> simp [toggleLike, hL]
    · cases hB : s.loadingBookmark <;> simp [toggleBookmark, hB]
  · intro u s e1 e2
    cases hF : s.isFollowing <;> simp [handleFollow, hF]
  · intro u s r
    constructor
    · cases hL : s.loadingLikes <;> cases hI : s.isLiked <;> cases r <;>
        simp [toggleLike, hL, hI, isNavigate]
    · cases hB : s.loadingBookmark <;> cases hI : s.isBookmarked <;> cases r <;>
        simp [toggleBookmark, hB, hI, isNavigate]
  · intro u s r
    cases hF : s.isFollowing <;> cases r <;>
      simp [handleFollow, hF, isNavigate]
  · intro s sf r
    exact ⟨rfl, rfl, rfl⟩

/-- C7: empty-or-failed load branching — a failed initial fetch and an
empty result are handled identically and totally (no crash, no error
dialog): if the viewed author is the current user the viewer redirects to
the story-creation flow, otherwise it navigates back; on a non-empty
successful fetch the viewer enters playback at index 0 with progress 0. -/
theorem fetchStories_branching :
    (∀ (db : List StoryRow) (v : String) (now : Int) (e : ErrKind),
       fetchStories db v now (some v) (some e) =
         (ViewerState.Exited ViewerExit.redirectCreate, [])) ∧
    (∀ (db : List StoryRow) (v u : String) (now : Int) (e : ErrKind), v ≠ u →
       fetchStories db v now (some u) (some e) =
         (ViewerState.Exited ViewerExit.goBack, [])) ∧
    (∀ (db : List StoryRow) (v : String) (now : Int) (e : ErrKind),
       fetchStories db v now none (some e) =
         (ViewerState.Exited ViewerExit.goBack, [])) ∧
    (∀ (db : List StoryRow) (v : String) (now : Int) (cu : Option String),
       getUserStories db v now = [] →
       fetchStories db v now cu none = (exitBranch v cu, [])) ∧
    (∀ (db : List StoryRow) (v : String) (now : Int) (cu : Option String),
       getUserStories db v now ≠ [] →
       ∃ ms, fetchStories db v now cu none = (ViewerState.Playing 0 0, ms)) := by
  refine ⟨?_, ?_, ?_, ?_, ?_⟩
  · intro db v now e
    simp [fetchStories, exitBranch]
  · intro db v u now e h
    simp [fetchStories, exitBranch, h]
  · intro db v now e
    rfl
  · intro db v now cu h
    simp [fetchStories, h]
  · intro db v now cu h
    obtain ⟨st0, rest, hcons⟩ := List.exists_cons_of_ne_nil h
    cases cu <;> simp [fetchStories, hcons]

/-- C7 witness: the branching applied at concrete inputs — a failed fetch
for another author goes back; an empty successful fetch for oneself
redirects to creation; a non-empty successful fetch starts playback at
`(0, 0)`. -/
theorem fetchStories_branching_witness :
    fetchStories [] "a" 0 (some "b") (some ErrKind.network) =
      (ViewerState.Exited ViewerExit.goBack, []) ∧
    fetchStories [] "a" 0 (some "a") none =
      (ViewerState.Exited ViewerExit.redirectCreate, []) ∧
    (∃ ms, fetchStories [⟨"s1", "a", "m", 1, 10, true⟩] "a" 5 (some "v") none =
      (ViewerState.Playing 0 0, ms)) := by
  refine ⟨?_, ?_, ?_⟩
  · exact fetchStories_branching.2.1 [] "a" "b" 0 ErrKind.network (by decide)
  · have hempty : getUserStories [] "a" 0 = [] := by
      simp [getUserStories]
    have h := fetchStories_branching.2.2.2.1 [] "a" 0 (some "a") hempty
    simpa [exitBranch] using h
  · have hone : getUserStories [⟨"s1", "a", "m", 1, 10, true⟩] "a" 5 =
        [⟨"s1", "a", "m", 1, 10, true⟩] := by
      simp [getUserStories, storyVisible]
    exact fetchStories_branching.2.2.2.2 [⟨"s1", "a", "m", 1, 10, true⟩] "a" 5
      (some "v") (by simp [hone])

/-- Letting every remaining timer expire from `Playing i` marks exactly
the items after `i`, in order, and ends with the exit transition. -/
theorem runTimers_exhaust (stories : List StoryRow) (u : String) :
    ∀ (fuel i : Nat), i + fuel = stories.length → i < stories.length →
      runTimers stories (some u) i fuel =
        (ViewerState.Exited ViewerExit.goBack,
         (stories.drop (i + 1)).map StoryRow.id) := by
  intro fuel
  induction fuel with
  | zero =>
    intro i h hi
    omega
  | succ k ih =>
    intro i h hi
    by_cases hlt : i < stories.length - 1
    · have hidx : i + 1 < stories.length := by omega
      have hnext : goToNextStory stories (some u) i =
          (ViewerState.Playing (i + 1) 0, [(stories[i + 1]).id]) := by
        simp [goToNextStory, hlt, List.getElem?_eq_getElem hidx]
      have hrest := ih (i + 1) (by omega) (by omega)
      simp only [runTimers, hnext, hrest]
      rw [List.drop_eq_getElem_cons hidx, List.map_cons]
      rfl
    · have hnext : goToNextStory stories (some u) i =
          (ViewerState.Exited ViewerExit.goBack, []) := by
        simp [goToNextStory, hlt]
      simp only [runTimers, hnext]
      rw [List.drop_eq_nil_of_le (by omega)]
      simp

/-- C6: viewer exhaustion — opening a session on an author with `N ≥ 1`
active stories (authenticated viewer) and letting every 5-second timer
expire naturally marks exactly the `N` items seen, one per item in
`created_at`-ascending playback order (item 0 on load, item `i` on the
transition to index `i`), and the session ends in the terminal exit
transition. -/
theorem viewer_exhaustion (db : List StoryRow) (a u : String) (now : Int)
    (h : 1 ≤ (getUserStories db a now).length) :
    viewerSession db a now (some u) (getUserStories db a now).length =
      (ViewerState.Exited ViewerExit.goBack,
       (getUserStories db a now).map StoryRow.id) := by
  obtain ⟨st0, rest, hcons⟩ :=
    List.exists_cons_of_ne_nil (l := getUserStories db a now)
      (by intro hnil; rw [hnil] at h; simp at h)
  have hrun := runTimers_exhaust (getUserStories db a now) u
    (getUserStories db a now).length 0 (by omega) (by omega)
  simp only [viewerSession, fetchStories, hcons] at hrun ⊢
  simp only [List.length_cons, List.drop_succ_cons, List.drop_zero] at hrun
  simp [hrun]

/-- C6 witness: a session on an author with one active story produces
exactly one seen mark and exits. -/
theorem viewer_exhaustion_witness :
    viewerSession [⟨"s1", "a", "m", 1, 10, true⟩] "a" 5 (some "v") 1 =
      (ViewerState.Exited ViewerExit.goBack, ["s1"]) := by
  have hone : getUserStories [⟨"s1", "a", "m", 1, 10, true⟩] "a" 5 =
      [⟨"s1", "a", "m", 1, 10, true⟩] := by
    simp [getUserStories, storyVisible]
  have h := viewer_exhaustion [⟨"s1", "a", "m", 1, 10, true⟩] "a" "v" 5
    (by simp [hone])
  rw [hone] at h
  simpa using h
